import Mathlib

/-!
Verification of the attendance derivation engine of
`backend/time_utils.py`: the time parser (`parse_time` /
`parse_time_simple` / `parse_time_obj`), the working-hours computation
(`calculate_working_hours`), the status classifier (`calculate_status`)
and the duration formatter (`format_hours`).

Modelling conventions:
* Python strings are Lean `String`; an input that may be `None` is
  `Option String`; Python truthiness of such a value (`if not punch_in`)
  is `isAbsent` below (`None` and `""` are falsy).
* Python floats are modelled as exact rationals `ℚ`; `round(x, n)` and
  `round(x)` use round-half-to-even exactly as Python's `round`.
* `datetime.strptime` applied to the formats used by the source is
  modelled by executable scanners that follow CPython's `_strptime`
  regexes: `%H` ~ 1-2 digits 0-23, `%M`/`%S` ~ 1-2 digits 0-59 (a
  leap-second match raises at construction, i.e. fails), `%I` ~ 1-2
  digits 1-12, `%p` ~ AM/PM case-insensitive, `%Y` ~ exactly 4 digits
  with year ≥ 1, `%m` ~ 1-12, `%d` ~ 1-31 checked against the month
  length, a space in the format ~ one or more whitespace characters,
  and the whole input must be consumed.  Because every format places a
  non-digit (colon, whitespace or end of input) after each numeric
  field, regex backtracking inside a digit run can never succeed, so
  scanning a maximal digit run is exactly equivalent.
* A Python statement that raises an uncaught exception makes the
  modelled function return `none` (for `calculate_status`, whose two
  uncaught raise points are `float(settings['max_break_duration'])` and
  `strptime(half_day_time, '%H:%M')`).
-/

/-- A time of day as produced by `datetime.strptime(...).time()`. -/
structure Tm where
  hour : Nat
  minute : Nat
  second : Nat
deriving Repr, DecidableEq

/-- Seconds since midnight; Python `time` objects compare
lexicographically on (hour, minute, second), which is the same order. -/
def Tm.toSecs (t : Tm) : Nat :=
  t.hour * 3600 + t.minute * 60 + t.second

/-- Scan a maximal run of ASCII digits, returning its value, its length
and the rest of the input. -/
def takeDigitsAux : List Char → Nat → Nat → Nat × Nat × List Char
  | [], v, n => (v, n, [])
  | c :: cs, v, n =>
    if c.isDigit then takeDigitsAux cs (v * 10 + (c.toNat - 48)) (n + 1)
    else (v, n, c :: cs)

/-- A 1-or-2 digit numeric directive with an inclusive value range
(CPython builds e.g. `2[0-3]|[0-1]\d|\d` for `%H`). -/
def matchNum2 (lo hi : Nat) (cs : List Char) : Option (Nat × List Char) :=
  match takeDigitsAux cs 0 0 with
  | (v, n, rest) =>
    if 1 ≤ n ∧ n ≤ 2 ∧ lo ≤ v ∧ v ≤ hi then some (v, rest) else none

/-- An exactly-4-digit directive (`%Y` compiles to `\d\d\d\d`). -/
def matchNum4 (cs : List Char) : Option (Nat × List Char) :=
  match takeDigitsAux cs 0 0 with
  | (v, n, rest) => if n = 4 then some (v, rest) else none

/-- A literal character of the format string. -/
def matchLit (c : Char) : List Char → Option (List Char)
  | x :: rest => if x = c then some rest else none
  | [] => none

/-- Whitespace in a strptime format matches one or more whitespace
characters of the input. -/
def matchWs : List Char → Option (List Char)
  | x :: rest =>
    if x.isWhitespace then some (rest.dropWhile Char.isWhitespace) else none
  | [] => none

/-- The `%p` directive: `AM` or `PM`, case-insensitively (the regex is
compiled with IGNORECASE).  Returns `true` for PM. -/
def matchMeridiem : List Char → Option (Bool × List Char)
  | c1 :: c2 :: rest =>
    if c1.toUpper = 'A' ∧ c2.toUpper = 'M' then some (false, rest)
    else if c1.toUpper = 'P' ∧ c2.toUpper = 'M' then some (true, rest)
    else none
  | _ => none

/-- 12-hour to 24-hour conversion performed by strptime for `%I`+`%p`. -/
def applyMeridiem (pm : Bool) (h12 : Nat) : Nat :=
  if pm then (if h12 = 12 then 12 else h12 + 12)
  else (if h12 = 12 then 0 else h12)

/-- `datetime.strptime(s, '%H:%M')`. -/
def strptimeHM (s : String) : Option Tm :=
  (matchNum2 0 23 s.data).bind fun hr =>
  (matchLit ':' hr.2).bind fun r2 =>
  (matchNum2 0 59 r2).bind fun mr =>
  if mr.2 = [] then some ⟨hr.1, mr.1, 0⟩ else none

/-- `datetime.strptime(s, '%H:%M:%S')`. -/
def strptimeHMS (s : String) : Option Tm :=
  (matchNum2 0 23 s.data).bind fun hr =>
  (matchLit ':' hr.2).bind fun r2 =>
  (matchNum2 0 59 r2).bind fun mr =>
  (matchLit ':' mr.2).bind fun r4 =>
  (matchNum2 0 59 r4).bind fun sr =>
  if sr.2 = [] then some ⟨hr.1, mr.1, sr.1⟩ else none

/-- `datetime.strptime(s, '%I:%M %p')`. -/
def strptimeIMp (s : String) : Option Tm :=
  (matchNum2 1 12 s.data).bind fun hr =>
  (matchLit ':' hr.2).bind fun r2 =>
  (matchNum2 0 59 r2).bind fun mr =>
  (matchWs mr.2).bind fun r4 =>
  (matchMeridiem r4).bind fun pr =>
  if pr.2 = [] then some ⟨applyMeridiem pr.1 hr.1, mr.1, 0⟩ else none

/-- `datetime.strptime(s, '%I:%M:%S %p')`. -/
def strptimeIMSp (s : String) : Option Tm :=
  (matchNum2 1 12 s.data).bind fun hr =>
  (matchLit ':' hr.2).bind fun r2 =>
  (matchNum2 0 59 r2).bind fun mr =>
  (matchLit ':' mr.2).bind fun r4 =>
  (matchNum2 0 59 r4).bind fun sr =>
  (matchWs sr.2).bind fun r6 =>
  (matchMeridiem r6).bind fun pr =>
  if pr.2 = [] then some ⟨applyMeridiem pr.1 hr.1, mr.1, sr.1⟩ else none

/-- Python `str.strip()` restricted to the characters Lean's
`Char.isWhitespace` knows (space, tab, CR, LF) — the ones that occur in
time strings. -/
def pyStrip (s : String) : List Char :=
  ((s.data.dropWhile Char.isWhitespace).reverse.dropWhile
    Char.isWhitespace).reverse

/-- `parse_time_simple` of `calculate_status` (time_utils.py lines
75-82): strip, then try the formats `%I:%M %p`, `%I:%M:%S %p`,
`%H:%M:%S`, `%H:%M` in order, returning `None` if all fail.  (The inner
`parse_time` of the late/early block, lines 109-116, is the identical
cascade and is therefore modelled by this same function.) -/
def parse_time_simple (t_str : String) : Option Tm :=
  let s : String := ⟨pyStrip t_str⟩
  strptimeIMp s <|> strptimeIMSp s <|> strptimeHMS s <|> strptimeHM s

/-- `parse_time_obj` of the break block (lines 149-155): the same
format cascade; it returns a full `datetime` on the default date
1900-01-01, but every use (comparison and subtraction against another
such datetime, and `.time()`) depends only on the time of day. -/
def parse_time_obj (t_str : String) : Option Tm :=
  parse_time_simple t_str

/-- Number of occurrences of a character. -/
def countChar (c : Char) : List Char → Nat
  | [] => 0
  | x :: rest => (if x = c then 1 else 0) + countChar c rest

/-- Two adjacent characters occur in the list, in order. -/
def hasPair (a b : Char) : List Char → Bool
  | [] => false
  | [_] => false
  | x :: y :: rest => (x == a && y == b) || hasPair a b (y :: rest)

/-- `'AM' in time_str.upper() or 'PM' in time_str.upper()`. -/
def containsAMPM (cs : List Char) : Bool :=
  let u := cs.map Char.toUpper
  hasPair 'A' 'M' u || hasPair 'P' 'M' u

/-- The inner `parse_time` of `calculate_working_hours` (lines 14-32),
minus its date-combination step (handled separately): strip; if the
string contains AM/PM try `%I:%M %p` then `%I:%M:%S %p`; otherwise use
`%H:%M:%S` when it has exactly two colons, else `%H:%M`.  Any strptime
failure propagates to the enclosing `except` (modelled as `none`). -/
def wh_parse_time (time_str : String) : Option Tm :=
  let cs := pyStrip time_str
  let s : String := ⟨cs⟩
  if containsAMPM cs then strptimeIMp s <|> strptimeIMSp s
  else if countChar ':' cs = 2 then strptimeHMS s
  else strptimeHM s

/-- Gregorian leap year, as `datetime.date` checks it. -/
def isLeap (y : Nat) : Bool :=
  y % 4 == 0 && (y % 100 != 0 || y % 400 == 0)

/-- Length of a month, as `datetime.date` checks it. -/
def daysInMonth (y m : Nat) : Nat :=
  if m = 2 then (if isLeap y then 29 else 28)
  else if m = 4 ∨ m = 6 ∨ m = 9 ∨ m = 11 then 30
  else 31

/-- `datetime.strptime(s, '%Y-%m-%d')` (line 31): 4-digit year ≥ 1,
month 1-12, day valid for the month; the whole string must match. -/
def strptimeYMD (s : String) : Option (Nat × Nat × Nat) :=
  (matchNum4 s.data).bind fun yr =>
  (matchLit '-' yr.2).bind fun r2 =>
  (matchNum2 1 12 r2).bind fun mr =>
  (matchLit '-' mr.2).bind fun r4 =>
  (matchNum2 1 31 r4).bind fun dr =>
  if dr.2 = [] ∧ 1 ≤ yr.1 ∧ dr.1 ≤ daysInMonth yr.1 mr.1 then
    some (yr.1, mr.1, dr.1)
  else none

/-- Python truthiness of an optional string field: `None` and the empty
string are falsy (`if not punch_in: ...`). -/
def isAbsent : Option String → Bool
  | none => true
  | some s => s == ""

/-- Round half to even to an integer, exactly Python's `round(x)`. -/
def roundHE (q : ℚ) : ℤ :=
  if q - (⌊q⌋ : ℚ) < 1 / 2 then ⌊q⌋
  else if 1 / 2 < q - (⌊q⌋ : ℚ) then ⌊q⌋ + 1
  else if ⌊q⌋ % 2 = 0 then ⌊q⌋ else ⌊q⌋ + 1

/-- Python's `round(x, 2)` on the exact rational value. -/
def round2 (q : ℚ) : ℚ := (roundHE (q * 100) : ℚ) / 100

/-- Python's `int(x)`: truncation toward zero. -/
def pyTrunc (q : ℚ) : ℤ := if q < 0 then ⌈q⌉ else ⌊q⌋

/-- `wh_parse_time` lifted to an optional field (inside
`calculate_working_hours` the punches are already known truthy, but the
lifted form states theorems uniformly). -/
def whParseOpt : Option String → Option Tm
  | none => none
  | some s => wh_parse_time s

/-- `parse_time_simple` lifted to an optional field; `parse_time_simple`
applied to Python `None` stringifies it to `"None"`, which matches no
format, so absence parses to absence. -/
def parseOpt : Option String → Option Tm
  | none => none
  | some s => parse_time_simple s

/-- `parse_time_obj` lifted to an optional field, as `parseOpt`. -/
def parseObjOpt : Option String → Option Tm
  | none => none
  | some s => parse_time_obj s

/-- `calculate_working_hours(punch_in, punch_out, date_str)`
(time_utils.py lines 7-44): `None` if either punch is falsy; otherwise
parse both times and the date (any failure makes the whole `try` return
`None`); the difference of the two same-day instants in hours, rounded
to 2 places and clamped below by 0. -/
def calculate_working_hours (punch_in punch_out : Option String)
    (date_str : String) : Option ℚ :=
  if isAbsent punch_in || isAbsent punch_out then none
  else
    match whParseOpt punch_in, whParseOpt punch_out,
          strptimeYMD date_str with
    | some tIn, some tOut, some _ =>
        some (max 0 (round2
          ((((tOut.toSecs : ℤ) - (tIn.toSecs : ℤ) : ℤ) : ℚ) / 3600)))
    | _, _, _ => none

/-- `format_hours` components (lines 195-200): truncate to whole hours,
round the remainder to whole minutes half-to-even, and carry a rounded
60 into the hour. -/
def format_hours_parts (decimal_hours : ℚ) : ℤ × ℤ :=
  let hours := pyTrunc decimal_hours
  let minutes := roundHE ((decimal_hours - (hours : ℚ)) * 60)
  if minutes = 60 then (hours + 1, 0) else (hours, minutes)

/-- `format_hours(decimal_hours)` (lines 190-211). -/
def format_hours : Option ℚ → String
  | none => ""
  | some dh =>
    let hm := format_hours_parts dh
    if hm.1 = 0 ∧ hm.2 = 0 then "0h 0m"
    else
      String.intercalate " "
        ((if 0 < hm.1 then [toString hm.1 ++ "h"] else []) ++
         (if 0 < hm.2 then [toString hm.2 ++ "m"] else []))

/-- Python's `float(s)` applied to the stored policy value, modelled on
plain decimal literals: optional whitespace and sign, digits with an
optional decimal point (at least one digit overall).  A string outside
this grammar (in particular every alphabetic "corrupt" value) raises
`ValueError`, i.e. yields `none`. -/
def parsePyFloat (s : String) : Option ℚ :=
  let cs := pyStrip s
  let signed : ℚ × List Char :=
    match cs with
    | '-' :: r => (-1, r)
    | '+' :: r => (1, r)
    | r => (1, r)
  match takeDigitsAux signed.2 0 0 with
  | (ip, nIp, cs2) =>
    match cs2 with
    | [] => if nIp = 0 then none else some (signed.1 * ip)
    | '.' :: r =>
      match takeDigitsAux r 0 0 with
      | (fp, nFp, cs3) =>
        if cs3 = [] ∧ 0 < nIp + nFp then
          some (signed.1 * ((ip : ℚ) + (fp : ℚ) / 10 ^ nFp))
        else none
    | _ => none

/-- The mutable settings map passed to `calculate_status`, one optional
stored string per recognized key (`settings.get(key, default)` supplies
the hardcoded default when the key is missing). -/
structure Settings where
  standard_start_time : Option String
  standard_end_time : Option String
  max_break_duration : Option String
  standard_break_start : Option String
  standard_break_end : Option String
  half_day_time : Option String
deriving Repr, DecidableEq

/-- The classifier's output record. -/
structure ClassificationResult where
  status : String
  is_late : Bool
  break_duration : ℚ
  break_exceeded : Bool
  is_break_outside_window : Bool
  is_early_departure : Bool
deriving Repr, DecidableEq

/-- Line 51, `float(settings.get('max_break_duration', 60))`: the one
settings access that converts eagerly and without a surrounding `try`;
`none` models the uncaught `ValueError` on a malformed stored value. -/
def settingsMaxBreak (st : Settings) : Option ℚ :=
  match st.max_break_duration with
  | none => some 60
  | some v => parsePyFloat v

/-- Line 86, `datetime.strptime(half_day_time_str, '%H:%M').time()`:
also outside every `try`; `none` models the uncaught `ValueError`. -/
def settingsHalfDay (st : Settings) : Option Tm :=
  strptimeHM (st.half_day_time.getD "14:00")

/-- Lines 123-126: the late threshold, falling back to 09:30 when the
stored `standard_start_time` does not parse (bare `except`). -/
def settingsStartThreshold (st : Settings) : Tm :=
  (strptimeHM (st.standard_start_time.getD "09:30")).getD ⟨9, 30, 0⟩

/-- Lines 135-138: the early-departure threshold, falling back to
18:30 when the stored `standard_end_time` does not parse. -/
def settingsEndThreshold (st : Settings) : Tm :=
  (strptimeHM (st.standard_end_time.getD "18:30")).getD ⟨18, 30, 0⟩

/-- Lines 89-101: the three independent half-day triggers. -/
def halfDayCond (working_hours : Option ℚ) (in_time out_time : Option Tm)
    (hdt : Tm) : Bool :=
  (match working_hours with
   | some wh => decide (wh < 5)
   | none => false)
  || (match out_time with
      | some t => decide (t.toSecs < hdt.toSecs)
      | none => false)
  || (match in_time with
      | some t => decide (hdt.toSecs < t.toSecs)
      | none => false)

/-- Lines 146-186, the break block: skipped unless both raw break
fields are truthy and both parse; the minute duration is rounded for
the output but compared unrounded against `max_break`; the window
check silently keeps the flag false when either stored window bound
fails to parse (inner `try`). -/
def checkBreak (break_start break_end : Option String) (max_break : ℚ)
    (st : Settings) : ℚ × Bool × Bool :=
  if isAbsent break_start || isAbsent break_end then (0, false, false)
  else
    match parseObjOpt break_start, parseObjOpt break_end with
    | some bs, some be =>
      let duration_mins : ℚ :=
        (((be.toSecs : ℤ) - (bs.toSecs : ℤ) : ℤ) : ℚ) / 60
      let exceeded := decide (max_break < duration_mins)
      let outside :=
        match strptimeHM (st.standard_break_start.getD "13:00"),
              strptimeHM (st.standard_break_end.getD "14:00") with
        | some sbs, some sbe =>
            decide (bs.toSecs < sbs.toSecs) || decide (sbe.toSecs < be.toSecs)
        | _, _ => false
      (round2 duration_mins, exceeded, outside)
    | _, _ => (0, false, false)

/-- `calculate_status(punch_in, punch_out, working_hours, date_str,
settings, break_start, break_end)` (time_utils.py lines 46-188).
`none` models an uncaught exception; the two possible raise points are
the eager `float` conversion of `max_break_duration` (before the
punch_in check) and the strptime of `half_day_time` (after it).  The
late/early block re-parses the punches with a format cascade identical
to `parse_time_simple`, so the parses are shared here.  `date_str` is
accepted and never used, exactly as in the source. -/
def calculate_status (punch_in punch_out : Option String)
    (working_hours : Option ℚ) (date_str : String) (st : Settings)
    (break_start break_end : Option String) : Option ClassificationResult :=
  match settingsMaxBreak st with
  | none => none
  | some max_break =>
    if isAbsent punch_in then
      some ⟨"Absent", false, 0, false, false, false⟩
    else
      match settingsHalfDay st with
      | none => none
      | some half_day_threshold =>
        let status1 := if isAbsent punch_out then "Incomplete" else "Present"
        let in_time := parseOpt punch_in
        let out_time := parseOpt punch_out
        let is_half_day :=
          halfDayCond working_hours in_time out_time half_day_threshold
        let status2 := if is_half_day then "Half Day" else status1
        let is_late :=
          match in_time with
          | some t => decide ((settingsStartThreshold st).toSecs < t.toSecs)
          | none => false
        let status3 :=
          if is_late && (status2 == "Present") then "Late" else status2
        let is_early :=
          match out_time with
          | some t => decide (t.toSecs < (settingsEndThreshold st).toSecs)
          | none => false
        let bk := checkBreak break_start break_end max_break st
        some ⟨status3, is_late, bk.1, bk.2.1, bk.2.2, is_early⟩

/-- Claim C6: the time parser succeeds on "09:15", "09:15:00",
"9:15 AM" and "09:15:00 AM" with the corresponding time of day, and
returns absence (not an error) on "not a time". -/
theorem parse_time_simple_format_coverage :
    parse_time_simple "09:15" = some ⟨9, 15, 0⟩ ∧
    parse_time_simple "09:15:00" = some ⟨9, 15, 0⟩ ∧
    parse_time_simple "9:15 AM" = some ⟨9, 15, 0⟩ ∧
    parse_time_simple "09:15:00 AM" = some ⟨9, 15, 0⟩ ∧
    parse_time_simple "not a time" = none := by
  decide

/-- Claim C9: `format_hours` of an absent value is the empty string. -/
theorem format_hours_none_empty : format_hours none = "" := rfl

/-- Claim C1, counterexample: with punch_in present and the stored
`half_day_time` equal to `"garbage"`, line 86's
`datetime.strptime(half_day_time_str, '%H:%M')` raises an uncaught
`ValueError`, so `calculate_status` returns no `ClassificationResult`
at all — the classifier is not total over corrupt settings maps. -/
theorem calculate_status_corrupt_half_day_raises :
    calculate_status (some "09:00") none none "2024-01-10"
      ⟨none, none, none, none, none, some "garbage"⟩ none none = none := by
  with_unfolding_all rfl

/-- Claim C1, amended: `calculate_status` returns a result whenever the
stored `max_break_duration` (default 60) converts to a float and the
stored `half_day_time` (default "14:00") parses as `HH:MM`; corrupt or
missing values of the four remaining policy keys never prevent a
result, falling back to defaults or leaving flags false. -/
theorem calculate_status_total_when_prelude_parses
    (pin pout : Option String) (wh : Option ℚ) (d : String) (st : Settings)
    (bs be : Option String) (mb : ℚ) (hdt : Tm)
    (hmb : settingsMaxBreak st = some mb)
    (hhd : settingsHalfDay st = some hdt) :
    (calculate_status pin pout wh d st bs be).isSome = true := by
  cases hab : isAbsent pin <;>
    simp [calculate_status, hmb, hhd, hab]

/-- Witness for C1's amended theorem: corrupt values in the four
non-prelude keys still produce a result. -/
theorem calculate_status_total_when_prelude_parses_witness :
    (calculate_status (some "09:00") (some "18:00") none "2024-01-10"
      ⟨some "junk1", some "junk2", some "60", some "junk3", some "junk4",
        some "13:30"⟩ none none).isSome = true :=
  calculate_status_total_when_prelude_parses _ _ _ _ _ _ _ 60 ⟨13, 30, 0⟩
    (by with_unfolding_all rfl) (by with_unfolding_all rfl)

/-- Claim C2, counterexample: even with punch_in absent, a corrupt
stored `max_break_duration` makes line 51's `float(...)` raise before
the punch_in check is ever reached, so no `Absent` result is produced
— the claim's "regardless of the policy settings" fails. -/
theorem absent_punch_in_corrupt_max_break_raises :
    calculate_status none (some "18:00") (some 8) "2024-01-10"
      ⟨none, none, some "garbage", none, none, none⟩ none none = none := by
  with_unfolding_all rfl

/-- Claim C2, amended: whenever punch_in is absent and the stored
`max_break_duration` (default 60) converts to a float, the result is
`Absent` with every flag false and break_duration 0, regardless of
punch_out, working_hours, break fields, date and the remaining policy
settings (corrupt or not). -/
theorem absent_punch_in_defaults (pout : Option String) (wh : Option ℚ)
    (d : String) (st : Settings) (bs be : Option String) (mb : ℚ)
    (hmb : settingsMaxBreak st = some mb) (pin : Option String)
    (hpin : isAbsent pin = true) :
    calculate_status pin pout wh d st bs be =
      some ⟨"Absent", false, 0, false, false, false⟩ := by
  simp [calculate_status, hmb, hpin]

/-- Witness for C2's amended theorem: absent punch_in with arbitrary
other fields and corrupt non-prelude settings yields the default
`Absent` record. -/
theorem absent_punch_in_defaults_witness :
    calculate_status none (some "18:00") (some 8) "2024-01-10"
      ⟨some "junkA", some "junkB", none, some "junkC", some "junkD",
        some "junkE"⟩ none (some "13:00") =
      some ⟨"Absent", false, 0, false, false, false⟩ :=
  absent_punch_in_defaults _ _ _
    ⟨some "junkA", some "junkB", none, some "junkC", some "junkD",
      some "junkE"⟩ _ _ 60 rfl none rfl

/-- The empty string matches none of the four time formats. -/
theorem parse_time_simple_empty : parse_time_simple "" = none := rfl

/-- A successfully parsed optional field is truthy: `None` parses to
nothing and so does the empty string, hence a parse success implies
the raw value was a non-empty string. -/
theorem isAbsent_false_of_parseOpt_some {p : Option String} {t : Tm}
    (h : parseOpt p = some t) : isAbsent p = false := by
  cases p with
  | none => exact absurd h (by simp [parseOpt])
  | some s =>
    by_cases hs : s = ""
    · subst hs
      rw [show parseOpt (some "") = none from rfl] at h
      exact absurd h (by simp)
    · simp [isAbsent, hs]

/-- `parse_time_obj` and `parse_time_simple` are the same cascade. -/
theorem parseObjOpt_eq_parseOpt (p : Option String) :
    parseObjOpt p = parseOpt p := by
  cases p <;> rfl

/-- Claim C3: whenever a result is produced, any input that fires one
of the three half-day triggers and the lateness condition (punch_in
parses and is strictly later than the standard-start threshold) is
labelled exactly `Half Day` with `is_late = true`; and the `Late`
status label is only ever written when the status was still `Present`
(no half-day trigger fired and punch_out is present). -/
theorem half_day_overrides_late_label :
    (∀ (pin pout : Option String) (wh : Option ℚ) (d : String)
       (st : Settings) (bs be : Option String) (hdt ti : Tm)
       (r : ClassificationResult),
       settingsHalfDay st = some hdt →
       halfDayCond wh (parseOpt pin) (parseOpt pout) hdt = true →
       parseOpt pin = some ti →
       (settingsStartThreshold st).toSecs < ti.toSecs →
       calculate_status pin pout wh d st bs be = some r →
       r.status = "Half Day" ∧ r.is_late = true)
    ∧ (∀ (pin pout : Option String) (wh : Option ℚ) (d : String)
       (st : Settings) (bs be : Option String) (r : ClassificationResult),
       calculate_status pin pout wh d st bs be = some r →
       r.status = "Late" →
       ∃ hdt, settingsHalfDay st = some hdt ∧
         halfDayCond wh (parseOpt pin) (parseOpt pout) hdt = false ∧
         isAbsent pout = false ∧ r.is_late = true) := by
  constructor
  · intro pin pout wh d st bs be hdt ti r hhd hcond hpi hlt hr
    have hab : isAbsent pin = false := isAbsent_false_of_parseOpt_some hpi
    cases hmb : settingsMaxBreak st with
    | none => simp [calculate_status, hmb] at hr
    | some mb =>
      have hlate :
          (match parseOpt pin with
           | some t => decide ((settingsStartThreshold st).toSecs < t.toSecs)
           | none => false) = true := by
        rw [hpi]; exact decide_eq_true hlt
      simp only [calculate_status, hmb, hab, hhd, Bool.false_eq_true,
        if_false, hcond, if_true, hlate, Option.some.injEq] at hr
      subst hr
      exact ⟨rfl, rfl⟩
  · intro pin pout wh d st bs be r hr hst
    cases hmb : settingsMaxBreak st with
    | none => simp [calculate_status, hmb] at hr
    | some mb =>
      cases hab : isAbsent pin with
      | true =>
        simp only [calculate_status, hmb, hab, if_true,
          Option.some.injEq] at hr
        subst hr
        exact absurd hst (by simp)
      | false =>
        cases hhd : settingsHalfDay st with
        | none => simp [calculate_status, hmb, hab, hhd] at hr
        | some hdt =>
          refine ⟨hdt, rfl, ?_⟩
          simp only [calculate_status, hmb, hab, hhd, Bool.false_eq_true,
            if_false, Option.some.injEq] at hr
          subst hr
          simp only [ClassificationResult.status] at hst
          cases hcond : halfDayCond wh (parseOpt pin) (parseOpt pout) hdt with
          | true => simp [hcond] at hst
          | false =>
            refine ⟨rfl, ?_⟩
            cases hpo : isAbsent pout with
            | true => simp [hcond, hpo] at hst
            | false =>
              refine ⟨rfl, ?_⟩
              simp only [hcond, hpo, if_false, Bool.false_eq_true] at hst ⊢
              cases hil :
                  (match parseOpt pin with
                   | some t =>
                       decide ((settingsStartThreshold st).toSecs < t.toSecs)
                   | none => false) with
              | true => simp [hil]
              | false => simp [hil] at hst

/-- Witness for C3: punches 15:00-18:45 under the all-default policy
fire the late-arrival half-day trigger (15:00 > 14:00) and the
lateness condition (15:00 > 09:30) simultaneously. -/
theorem half_day_overrides_late_label_witness :
    (⟨"Half Day", true, 0, false, false, false⟩ :
        ClassificationResult).status = "Half Day" ∧
    (⟨"Half Day", true, 0, false, false, false⟩ :
        ClassificationResult).is_late = true :=
  half_day_overrides_late_label.1 (some "15:00") (some "18:45") none
    "2024-01-10" ⟨none, none, none, none, none, none⟩ none none
    ⟨14, 0, 0⟩ ⟨15, 0, 0⟩ ⟨"Half Day", true, 0, false, false, false⟩
    rfl (by decide) rfl (by decide) (by with_unfolding_all rfl)

/-- Half-even rounding lands on the floor or one above it. -/
theorem roundHE_cases (q : ℚ) : roundHE q = ⌊q⌋ ∨ roundHE q = ⌊q⌋ + 1 := by
  unfold roundHE
  split_ifs <;> simp

/-- A duration of at most minus one second of a minute rounds to a
strictly negative two-decimal value. -/
theorem round2_neg {q : ℚ} (h : q ≤ -1 / 60) : round2 q < 0 := by
  have hfl : (⌊q * 100⌋ : ℚ) ≤ q * 100 := Int.floor_le _
  have hR : ((roundHE (q * 100) : ℤ) : ℚ) < 0 := by
    rcases roundHE_cases (q * 100) with h' | h' <;> rw [h'] <;>
      push_cast <;> linarith
  unfold round2
  exact div_neg_of_neg_of_pos hR (by norm_num)

/-- The break block on a parsed pair with break_end strictly earlier
than break_start: the stored duration is strictly negative and, for a
non-negative `max_break`, the exceeded flag stays false. -/
theorem checkBreak_neg (bs be : Option String) (mb : ℚ) (st : Settings)
    (tbs tbe : Tm) (hbs : parseObjOpt bs = some tbs)
    (hbe : parseObjOpt be = some tbe) (hlt : tbe.toSecs < tbs.toSecs)
    (hmb0 : 0 ≤ mb) :
    (checkBreak bs be mb st).1 < 0 ∧ (checkBreak bs be mb st).2.1 = false := by
  have hbs' : isAbsent bs = false :=
    isAbsent_false_of_parseOpt_some (parseObjOpt_eq_parseOpt bs ▸ hbs)
  have hbe' : isAbsent be = false :=
    isAbsent_false_of_parseOpt_some (parseObjOpt_eq_parseOpt be ▸ hbe)
  have hk : (((tbe.toSecs : ℤ) - (tbs.toSecs : ℤ) : ℤ) : ℚ) ≤ -1 := by
    have h1 : (tbe.toSecs : ℤ) - (tbs.toSecs : ℤ) ≤ -1 := by omega
    exact_mod_cast h1
  have hdm : (((tbe.toSecs : ℤ) - (tbs.toSecs : ℤ) : ℤ) : ℚ) / 60 ≤ -1 / 60 := by
    linarith
  have hnl : ¬ (mb < (((tbe.toSecs : ℤ) - (tbs.toSecs : ℤ) : ℤ) : ℚ) / 60) := by
    push_neg
    linarith
  simp only [checkBreak, hbs', hbe', Bool.or_self, Bool.false_eq_true,
    if_false, hbs, hbe]
  exact ⟨round2_neg hdm, decide_eq_false hnl⟩

/-- Claim C4, counterexample: break_start "14:00" and break_end "13:00"
both parse and break_end precedes break_start, yet with punch_in absent
the classifier returns before the break block, so the returned
break_duration is 0, not negative. -/
theorem negative_break_needs_punch_in_cex :
    calculate_status none none none "2024-01-10"
      ⟨none, none, none, none, none, none⟩ (some "14:00") (some "13:00") =
      some ⟨"Absent", false, 0, false, false, false⟩ := by
  with_unfolding_all rfl

/-- Claim C4, amended: in every call that produces a result, in which
punch_in is present and both break fields parse with break_end strictly
earlier than break_start, the returned break_duration is negative (no
clamping to zero) and break_exceeded stays false whenever the converted
max_break_duration is non-negative. -/
theorem negative_break_duration_passes_through
    (pin pout : Option String) (wh : Option ℚ) (d : String) (st : Settings)
    (bs be : Option String) (mb : ℚ) (hdt tbs tbe : Tm)
    (r : ClassificationResult)
    (hmb : settingsMaxBreak st = some mb) (hmb0 : 0 ≤ mb)
    (hhd : settingsHalfDay st = some hdt) (hpin : isAbsent pin = false)
    (hbs : parseObjOpt bs = some tbs) (hbe : parseObjOpt be = some tbe)
    (hlt : tbe.toSecs < tbs.toSecs)
    (hr : calculate_status pin pout wh d st bs be = some r) :
    r.break_duration < 0 ∧ r.break_exceeded = false := by
  simp only [calculate_status, hmb, hpin, hhd, Bool.false_eq_true, if_false,
    Option.some.injEq] at hr
  subst hr
  exact checkBreak_neg bs be mb st tbs tbe hbs hbe hlt hmb0

/-- Witness for C4's amended theorem: punches 09:00-18:45 with break
14:00 to 13:00 under the default policy yield duration -60 minutes and
break_exceeded false. -/
theorem negative_break_duration_passes_through_witness :
    (⟨"Present", false, -60, false, false, false⟩ :
        ClassificationResult).break_duration < 0 ∧
    (⟨"Present", false, -60, false, false, false⟩ :
        ClassificationResult).break_exceeded = false :=
  negative_break_duration_passes_through (some "09:00") (some "18:45") none
    "2024-01-10" ⟨none, none, none, none, none, none⟩
    (some "14:00") (some "13:00") 60 ⟨14, 0, 0⟩ ⟨14, 0, 0⟩ ⟨13, 0, 0⟩
    ⟨"Present", false, -60, false, false, false⟩
    rfl (by norm_num) rfl rfl rfl rfl (by decide)
    (by with_unfolding_all rfl)

/-- Like `isAbsent_false_of_parseOpt_some`, for the working-hours
parser: a parse success implies the raw field was a non-empty string. -/
theorem isAbsent_false_of_whParseOpt_some {p : Option String} {t : Tm}
    (h : whParseOpt p = some t) : isAbsent p = false := by
  cases p with
  | none => exact absurd h (by simp [whParseOpt])
  | some s =>
    by_cases hs : s = ""
    · subst hs
      rw [show whParseOpt (some "") = none from rfl] at h
      exact absurd h (by simp)
    · simp [isAbsent, hs]

/-- Claim C5, counterexample: both punches parse, yet the malformed
date string makes `datetime.strptime(date_str, '%Y-%m-%d')` raise
inside the `try`, and `calculate_working_hours` returns null — so null
is not returned exactly when a punch is absent or unparseable. -/
theorem working_hours_null_on_bad_date_cex :
    wh_parse_time "09:00" = some ⟨9, 0, 0⟩ ∧
    wh_parse_time "17:00" = some ⟨17, 0, 0⟩ ∧
    calculate_working_hours (some "09:00") (some "17:00") "nonsense" = none :=
  ⟨rfl, rfl, rfl⟩

/-- Claim C5, amended: `calculate_working_hours` returns null exactly
when punch_in or punch_out is absent or unparseable or the date string
fails to parse as a YYYY-MM-DD calendar date; otherwise it returns the
elapsed hours between the two same-day instants, rounded to two
decimal places and clamped to zero from below (the clamp bites exactly
when punch_out's time of day is earlier than punch_in's). -/
theorem calculate_working_hours_spec (pin pout : Option String) (d : String) :
    (calculate_working_hours pin pout d = none ↔
      isAbsent pin = true ∨ isAbsent pout = true ∨
      whParseOpt pin = none ∨ whParseOpt pout = none ∨
      strptimeYMD d = none)
    ∧ ∀ tIn tOut, whParseOpt pin = some tIn → whParseOpt pout = some tOut →
        strptimeYMD d ≠ none →
        calculate_working_hours pin pout d =
          some (max 0 (round2
            ((((tOut.toSecs : ℤ) - (tIn.toSecs : ℤ) : ℤ) : ℚ) / 3600))) := by
  constructor
  · cases h1 : isAbsent pin <;> cases h2 : isAbsent pout <;>
      cases hpi : whParseOpt pin <;> cases hpo : whParseOpt pout <;>
      cases hd : strptimeYMD d <;>
      simp [calculate_working_hours, h1, h2, hpi, hpo, hd]
  · intro tIn tOut hpi hpo hd
    have h1 : isAbsent pin = false := isAbsent_false_of_whParseOpt_some hpi
    have h2 : isAbsent pout = false := isAbsent_false_of_whParseOpt_some hpo
    cases hd' : strptimeYMD d with
    | none => exact absurd hd' hd
    | some ymd => simp [calculate_working_hours, h1, h2, hpi, hpo, hd']

/-- Witness for C5's amended theorem: the spec's end-to-end scenario
09:45 to 18:00 on 2024-01-10 (the rounded clamped value is 8.25). -/
theorem calculate_working_hours_spec_witness :
    calculate_working_hours (some "09:45") (some "18:00") "2024-01-10" =
      some (max 0 (round2
        (((((Tm.mk 18 0 0).toSecs : ℤ) - ((Tm.mk 9 45 0).toSecs : ℤ) : ℤ) : ℚ)
          / 3600))) :=
  (calculate_working_hours_spec (some "09:45") (some "18:00")
    "2024-01-10").2 ⟨9, 45, 0⟩ ⟨18, 0, 0⟩ rfl rfl (by decide)

/-- Claim C7, counterexample: under the break-window policy, with the
break 12:30-14:30 but punch_in absent, the classifier returns at the
punch_in check before the break block ever runs — break_duration is 0,
not 120, and neither break flag is set, refuting "for any fixed punch
times". -/
theorem break_window_needs_punch_in_cex :
    calculate_status none none none "2024-01-10"
      ⟨none, none, some "60", some "13:00", some "14:00", none⟩
      (some "12:30") (some "14:30") =
      some ⟨"Absent", false, 0, false, false, false⟩ := by
  with_unfolding_all rfl

/-- Claim C7, amended: under policy standard_break_start "13:00",
standard_break_end "14:00", max_break_duration "60", for any punch
times with punch_in present and any date, the break 13:05-13:50 yields
break_exceeded false, is_break_outside_window false and break_duration
45.0, and the break 12:30-14:30 yields is_break_outside_window true,
break_duration 120.0 and break_exceeded true. -/
theorem break_window_policy_results :
    ∀ (pin pout : Option String) (wh : Option ℚ) (d : String)
      (r1 r2 : ClassificationResult),
      isAbsent pin = false →
      (calculate_status pin pout wh d
          ⟨none, none, some "60", some "13:00", some "14:00", none⟩
          (some "13:05") (some "13:50") = some r1 →
        r1.break_exceeded = false ∧ r1.is_break_outside_window = false ∧
        r1.break_duration = 45)
      ∧ (calculate_status pin pout wh d
          ⟨none, none, some "60", some "13:00", some "14:00", none⟩
          (some "12:30") (some "14:30") = some r2 →
        r2.is_break_outside_window = true ∧ r2.break_duration = 120 ∧
        r2.break_exceeded = true) := by
  intro pin pout wh d r1 r2 hpin
  have hmb : settingsMaxBreak
      ⟨none, none, some "60", some "13:00", some "14:00", none⟩ = some 60 := by
    with_unfolding_all rfl
  have hhd : settingsHalfDay
      ⟨none, none, some "60", some "13:00", some "14:00", none⟩ =
      some ⟨14, 0, 0⟩ := rfl
  have hb1 : checkBreak (some "13:05") (some "13:50") 60
      ⟨none, none, some "60", some "13:00", some "14:00", none⟩ =
      (45, false, false) := by
    with_unfolding_all rfl
  have hb2 : checkBreak (some "12:30") (some "14:30") 60
      ⟨none, none, some "60", some "13:00", some "14:00", none⟩ =
      (120, true, true) := by
    with_unfolding_all rfl
  constructor
  · intro hr
    simp only [calculate_status, hmb, hpin, hhd, Bool.false_eq_true, if_false,
      Option.some.injEq] at hr
    subst hr
    simp [hb1]
  · intro hr
    simp only [calculate_status, hmb, hpin, hhd, Bool.false_eq_true, if_false,
      Option.some.injEq] at hr
    subst hr
    simp [hb2]

/-- Witness for C7's amended theorem: punches 09:00-18:45, both break
scenarios. -/
theorem break_window_policy_results_witness :
    ((⟨"Present", false, 45, false, false, false⟩ :
        ClassificationResult).break_exceeded = false ∧
      (⟨"Present", false, 45, false, false, false⟩ :
        ClassificationResult).is_break_outside_window = false ∧
      (⟨"Present", false, 45, false, false, false⟩ :
        ClassificationResult).break_duration = 45)
    ∧ ((⟨"Present", false, 120, true, true, false⟩ :
        ClassificationResult).is_break_outside_window = true ∧
      (⟨"Present", false, 120, true, true, false⟩ :
        ClassificationResult).break_duration = 120 ∧
      (⟨"Present", false, 120, true, true, false⟩ :
        ClassificationResult).break_exceeded = true) :=
  ⟨(break_window_policy_results (some "09:00") (some "18:45") none
      "2024-01-10" ⟨"Present", false, 45, false, false, false⟩
      ⟨"Present", false, 120, true, true, false⟩ rfl).1
      (by with_unfolding_all rfl),
    (break_window_policy_results (some "09:00") (some "18:45") none
      "2024-01-10" ⟨"Present", false, 45, false, false, false⟩
      ⟨"Present", false, 120, true, true, false⟩ rfl).2
      (by with_unfolding_all rfl)⟩

/-- Claim C8: base presence depends only on the punches being
non-empty, not on their parsing: two non-empty unparseable punches
give Present with all flags false and zero break duration, and a
non-empty unparseable punch_in with absent punch_out gives Incomplete
with the same defaults. -/
theorem presence_independent_of_parse :
    ∀ (s1 s2 d : String) (st : Settings) (mb : ℚ) (hdt : Tm),
      s1 ≠ "" → s2 ≠ "" →
      parse_time_simple s1 = none → parse_time_simple s2 = none →
      settingsMaxBreak st = some mb → settingsHalfDay st = some hdt →
      calculate_status (some s1) (some s2) none d st none none =
        some ⟨"Present", false, 0, false, false, false⟩
      ∧ calculate_status (some s1) none none d st none none =
        some ⟨"Incomplete", false, 0, false, false, false⟩ := by
  intro s1 s2 d st mb hdt h1 h2 hp1 hp2 hmb hhd
  have ha1 : isAbsent (some s1) = false := by simp [isAbsent, h1]
  have ha2 : isAbsent (some s2) = false := by simp [isAbsent, h2]
  have hpo1 : parseOpt (some s1) = none := hp1
  have hpo2 : parseOpt (some s2) = none := hp2
  have hnone : isAbsent (none : Option String) = true := rfl
  have hpnone : parseOpt (none : Option String) = none := rfl
  constructor <;>
    simp [calculate_status, hmb, hhd, ha1, ha2, hpo1, hpo2, halfDayCond,
      checkBreak, hnone, hpnone]

/-- Witness for C8: the unparseable punches "garbage" and "junk" under
the all-default policy. -/
theorem presence_independent_of_parse_witness :
    calculate_status (some "garbage") (some "junk") none "2024-01-10"
      ⟨none, none, none, none, none, none⟩ none none =
      some ⟨"Present", false, 0, false, false, false⟩
    ∧ calculate_status (some "garbage") none none "2024-01-10"
      ⟨none, none, none, none, none, none⟩ none none =
      some ⟨"Incomplete", false, 0, false, false, false⟩ :=
  presence_independent_of_parse "garbage" "junk" "2024-01-10"
    ⟨none, none, none, none, none, none⟩ 60 ⟨14, 0, 0⟩
    (by decide) (by decide) rfl rfl rfl rfl

/-- Claim C10: for every non-negative decimal-hours input the rendered
minutes component lies in 0..59 — a fractional part that rounds to 60
carries into the hour and resets the minutes to zero — and in
particular 1.999 hours renders as "2h", never "1h 60m". -/
theorem format_hours_minutes_in_range :
    (∀ q : ℚ, 0 ≤ q →
      0 ≤ (format_hours_parts q).2 ∧ (format_hours_parts q).2 ≤ 59)
    ∧ format_hours (some (1999 / 1000)) = "2h" := by
  constructor
  · intro q hq
    have htr : pyTrunc q = ⌊q⌋ := if_neg (not_lt.mpr hq)
    have hfr0 : (0:ℚ) ≤ q - (⌊q⌋ : ℚ) := by
      have := Int.floor_le q
      linarith
    have hfr1 : q - (⌊q⌋ : ℚ) < 1 := by
      have := Int.lt_floor_add_one q
      linarith
    have hx0 : (0:ℚ) ≤ (q - (⌊q⌋ : ℚ)) * 60 := by nlinarith
    have hx60 : (q - (⌊q⌋ : ℚ)) * 60 < 60 := by nlinarith
    have hflx0 : (0:ℤ) ≤ ⌊(q - (⌊q⌋ : ℚ)) * 60⌋ := Int.floor_nonneg.mpr hx0
    have hflx60 : ⌊(q - (⌊q⌋ : ℚ)) * 60⌋ < 60 :=
      Int.floor_lt.mpr (by push_cast; linarith)
    simp only [format_hours_parts, htr]
    rcases roundHE_cases ((q - (⌊q⌋ : ℚ)) * 60) with h | h <;>
      by_cases h60 : roundHE ((q - (⌊q⌋ : ℚ)) * 60) = 60 <;>
      simp only [h60, if_pos, if_neg, if_true, if_false, reduceIte] <;>
      omega
  · with_unfolding_all rfl

/-- Witness for C10: the input 3.7 hours has its minutes component in
range. -/
theorem format_hours_minutes_in_range_witness :
    0 ≤ (format_hours_parts (37 / 10)).2 ∧
    (format_hours_parts (37 / 10)).2 ≤ 59 :=
  format_hours_minutes_in_range.1 (37 / 10) (by norm_num)
